import Mathlib

/-!
Verification development for the `yellowstone-grpc-kafka` bridge
(`src/bin/grpc-kafka.rs` plus `src/lib.rs`).

The pure per-message transformations (keying, hashing, hex codec, dedup key
parsing, dedup test-and-set) are embedded as executable Lean functions, and
the control flow of the `grpc2kafka` and `dedup` loops is embedded as explicit
step functions over small state machines whose states are the suspension
points of the source (the `tokio::select!` sites, the blocking sleeps, and the
drain loops).  Bytes are `Nat` values below 256; 32-bit machine words are
`Nat` reduced modulo `2 ^ 32` wherever the source wraps.
-/

namespace YGK

/-! ## Bytes and lowercase hex encoding (`const_hex::encode`) -/

/-- The lowercase hex digit table, `HEX_CHARS_LOWER` in `const_hex`. -/
def hexTable : List Char := "0123456789abcdef".data

/-- One hex digit (lowercase) for a nibble. -/
def hexDigitChar (n : Nat) : Char := hexTable.getD n '0'

/-- The two lowercase hex digits of one byte, high nibble first. -/
def hexByte (b : Nat) : List Char := [hexDigitChar (b / 16), hexDigitChar (b % 16)]

/-- All hex digits of a byte string. -/
def hexChars (bs : List Nat) : List Char := bs.flatMap hexByte

/-- `const_hex::encode`: lowercase hex of a byte string. -/
def hexEncode (bs : List Nat) : String := String.mk (hexChars bs)

/-- Is `c` one of the sixteen lowercase hex digit characters? -/
def isLowerHexDigit (c : Char) : Bool :=
  (decide ('0' ≤ c) && decide (c ≤ '9')) || (decide ('a' ≤ c) && decide (c ≤ 'f'))

/-! ## SHA-256 (`sha2::Sha256::digest`), over byte lists -/

/-- Truncation to a 32-bit machine word. -/
def w32 (x : Nat) : Nat := x % 4294967296

/-- Right rotation of a 32-bit word. -/
def rotr32 (n x : Nat) : Nat := w32 (x / 2 ^ n + x % 2 ^ n * 2 ^ (32 - n))

/-- The SHA-256 round constants (FIPS 180-4, written in decimal). -/
def sha256k : List Nat :=
  [1116352408, 1899447441, 3049323471, 3921009573,
   961987163, 1508970993, 2453635748, 2870763221,
   3624381080, 310598401, 607225278, 1426881987,
   1925078388, 2162078206, 2614888103, 3248222580,
   3835390401, 4022224774, 264347078, 604807628,
   770255983, 1249150122, 1555081692, 1996064986,
   2554220882, 2821834349, 2952996808, 3210313671,
   3336571891, 3584528711, 113926993, 338241895,
   666307205, 773529912, 1294757372, 1396182291,
   1695183700, 1986661051, 2177026350, 2456956037,
   2730485921, 2820302411, 3259730800, 3345764771,
   3516065817, 3600352804, 4094571909, 275423344,
   430227734, 506948616, 659060556, 883997877,
   958139571, 1322822218, 1537002063, 1747873779,
   1955562222, 2024104815, 2227730452, 2361852424,
   2428436474, 2756734187, 3204031479, 3329325298]

/-- The eight working words of the SHA-256 state. -/
structure H8 where
  a : Nat
  b : Nat
  c : Nat
  d : Nat
  e : Nat
  f : Nat
  g : Nat
  h : Nat
  deriving DecidableEq

/-- The SHA-256 initial state (FIPS 180-4, written in decimal). -/
def sha256init : H8 :=
  ⟨1779033703, 3144134277, 1013904242, 2773480762,
   1359893119, 2600822924, 528734635, 1541459225⟩

/-- Big-endian 32-bit words from bytes, four at a time. -/
def wordsOfBytes : List Nat → List Nat
  | b0 :: b1 :: b2 :: b3 :: rest =>
      (b0 * 16777216 + b1 * 65536 + b2 * 256 + b3) :: wordsOfBytes rest
  | _ => []

/-- Message-schedule extension: `acc` holds the words produced so far, newest
first; `n` counts the words still to produce.  The result is the full schedule
in order. -/
def sha256schedule : Nat → List Nat → List Nat
  | 0, acc => acc.reverse
  | n + 1, acc =>
      let x15 := acc.getD 14 0
      let x2 := acc.getD 1 0
      let s0 := rotr32 7 x15 ^^^ rotr32 18 x15 ^^^ x15 / 2 ^ 3
      let s1 := rotr32 17 x2 ^^^ rotr32 19 x2 ^^^ x2 / 2 ^ 10
      sha256schedule n (w32 (acc.getD 15 0 + s0 + acc.getD 6 0 + s1) :: acc)

/-- One SHA-256 compression round, taking `(wᵢ, kᵢ)`. -/
def sha256round (st : H8) (wk : Nat × Nat) : H8 :=
  let s1 := rotr32 6 st.e ^^^ rotr32 11 st.e ^^^ rotr32 25 st.e
  let ch := (st.e &&& st.f) ^^^ ((st.e ^^^ 4294967295) &&& st.g)
  let t1 := w32 (st.h + s1 + ch + wk.2 + wk.1)
  let s0 := rotr32 2 st.a ^^^ rotr32 13 st.a ^^^ rotr32 22 st.a
  let maj := (st.a &&& st.b) ^^^ (st.a &&& st.c) ^^^ (st.b &&& st.c)
  let t2 := w32 (s0 + maj)
  ⟨w32 (t1 + t2), st.a, st.b, st.c, w32 (st.d + t1), st.e, st.f, st.g⟩

/-- Compress one 64-byte block into the running state. -/
def sha256compress (st : H8) (block : List Nat) : H8 :=
  let w := sha256schedule 48 (wordsOfBytes block).reverse
  let r := (w.zip sha256k).foldl sha256round st
  ⟨w32 (st.a + r.a), w32 (st.b + r.b), w32 (st.c + r.c), w32 (st.d + r.d),
   w32 (st.e + r.e), w32 (st.f + r.f), w32 (st.g + r.g), w32 (st.h + r.h)⟩

/-- The eight big-endian bytes of a 64-bit length field. -/
def beBytes8 (n : Nat) : List Nat :=
  [n / 2 ^ 56 % 256, n / 2 ^ 48 % 256, n / 2 ^ 40 % 256, n / 2 ^ 32 % 256,
   n / 2 ^ 24 % 256, n / 2 ^ 16 % 256, n / 2 ^ 8 % 256, n % 256]

/-- SHA-256 padding: `0x80`, zeros to 56 mod 64, then the bit length. -/
def sha256pad (msg : List Nat) : List Nat :=
  let l := msg.length
  msg ++ [128] ++ List.replicate ((64 - (l + 9) % 64) % 64) 0 ++ beBytes8 (8 * l)

/-- Run the compression over `fuel` successive 64-byte blocks. -/
def sha256blocks : Nat → List Nat → H8 → H8
  | 0, _, st => st
  | n + 1, bytes, st => sha256blocks n (bytes.drop 64) (sha256compress st (bytes.take 64))

/-- The four big-endian bytes of one 32-bit word. -/
def bytesOfWord32 (x : Nat) : List Nat :=
  [x / 2 ^ 24 % 256, x / 2 ^ 16 % 256, x / 2 ^ 8 % 256, x % 256]

/-- The 32 digest bytes of a final state. -/
def digestOf (st : H8) : List Nat :=
  bytesOfWord32 st.a ++ bytesOfWord32 st.b ++ bytesOfWord32 st.c ++ bytesOfWord32 st.d ++
  bytesOfWord32 st.e ++ bytesOfWord32 st.f ++ bytesOfWord32 st.g ++ bytesOfWord32 st.h

/-- `Sha256::digest` over a byte string. -/
def sha256 (msg : List Nat) : List Nat :=
  let padded := sha256pad msg
  digestOf (sha256blocks (padded.length / 64) padded sha256init)

/-! ## Basic facts about the digest and its hex form -/

theorem digestOf_length (st : H8) : (digestOf st).length = 32 := rfl

theorem sha256_length (msg : List Nat) : (sha256 msg).length = 32 :=
  digestOf_length _

theorem mem_bytesOfWord32_lt {b x : Nat} (hb : b ∈ bytesOfWord32 x) : b < 256 := by
  simp only [bytesOfWord32, List.mem_cons, List.not_mem_nil, or_false] at hb
  rcases hb with rfl | rfl | rfl | rfl <;> exact Nat.mod_lt _ (by norm_num)

theorem mem_sha256_lt {b : Nat} {msg : List Nat} (hb : b ∈ sha256 msg) : b < 256 := by
  simp only [sha256, digestOf, List.mem_append] at hb
  rcases hb with ((((((h | h) | h) | h) | h) | h) | h) | h <;>
    exact mem_bytesOfWord32_lt h

theorem hexDigitChar_lower {n : Nat} (hn : n < 16) :
    isLowerHexDigit (hexDigitChar n) = true := by
  interval_cases n <;> decide

theorem hexByte_lower {b : Nat} (hb : b < 256) :
    ∀ c ∈ hexByte b, isLowerHexDigit c = true := by
  intro c hc
  simp only [hexByte, List.mem_cons, List.not_mem_nil, or_false] at hc
  rcases hc with rfl | rfl
  · exact hexDigitChar_lower (Nat.div_lt_of_lt_mul (by omega))
  · exact hexDigitChar_lower (Nat.mod_lt _ (by norm_num))

theorem hexChars_length (bs : List Nat) : (hexChars bs).length = 2 * bs.length := by
  induction bs with
  | nil => rfl
  | cons b bs ih => simp [hexChars, List.flatMap, hexByte] at ih ⊢; omega

theorem hexEncode_length (bs : List Nat) : (hexEncode bs).length = 2 * bs.length :=
  hexChars_length bs

theorem hexEncode_lower {bs : List Nat} (hbs : ∀ b ∈ bs, b < 256) :
    ∀ c ∈ (hexEncode bs).data, isLowerHexDigit c = true := by
  intro c hc
  simp only [hexEncode, hexChars, List.mem_flatMap] at hc
  obtain ⟨b, hb, hcb⟩ := hc
  exact hexByte_lower (hbs b hb) c hcb

/-! ## Updates and the per-update handling block of `grpc2kafka`
(`src/bin/grpc-kafka.rs` lines 317-368) -/

/-- Modelled from the spec (§4.E, §6): the generated protobuf module
`src/generated` (re-encode of the inner transaction, decode as
`SubscribeUpdateTransactionInfo`, `serde_json` serialization) is not under
`src/`; a transaction body is represented by the observable outcome of that
round trip — whether the decode succeeds, and the UTF-8 JSON bytes it
serializes to when it does. -/
structure TxInfo where
  decodeOk : Bool
  json : List Nat
  deriving DecidableEq

/-- `subscribe_update::UpdateOneof`: one variant per update kind, each
non-ping variant carrying its `slot` field; `transaction` carries the optional
inner transaction body. -/
inductive UpdateOneof
  | account (slot : Nat)
  | slot (slot : Nat)
  | transaction (slot : Nat) (transaction : Option TxInfo)
  | transactionStatus (slot : Nat)
  | block (slot : Nat)
  | ping
  | pong
  | blockMeta (slot : Nat)
  | entry (slot : Nat)
  deriving DecidableEq

/-- Outcome of the `Ok(Some(msg))` handling block: `panicked` is the
`unreachable!("Expect valid message")` arm, `skip` is every `continue`, and
`publish` carries the `FutureRecord` key, payload, and the slot the key was
built from. -/
inductive HandleResult
  | panicked
  | skip
  | publish (key : String) (payload : List Nat) (slot : Nat)
  deriving DecidableEq

/-- `msg.transaction.as_ref().and_then(...)` (lines 331-346): encode the inner
transaction, decode it as `SubscribeUpdateTransactionInfo`, serialize to JSON
bytes; a decode failure logs a warning and yields `None`. -/
def txPayload : Option TxInfo → Option (List Nat)
  | none => none
  | some tx => if tx.decodeOk then some tx.json else none

/-- `format!("{slot}_{}", const_hex::encode(hash))` with
`hash = Sha256::digest(&send_data)` (lines 361-362). -/
def mkKey (slot : Nat) (sendData : List Nat) : String :=
  toString slot ++ "_" ++ hexEncode (sha256 sendData)

/-- `let Some(send_data) = payload else { continue }` and the keying that
follows (lines 357-368). -/
def afterSlot (slot : Nat) (payload : Option (List Nat)) : HandleResult :=
  match payload with
  | none => .skip
  | some sendData => .publish (mkKey slot sendData) sendData slot

/-- The whole per-update block (lines 322-368): the match on `update_oneof`
(`None` is `unreachable!`), the slot/payload extraction per variant with
`Ping`/`Pong` `continue`d, then the keying. -/
def handleUpdate : Option UpdateOneof → HandleResult
  | none => .panicked
  | some m =>
    match m with
    | .account s => afterSlot s none
    | .slot s => afterSlot s none
    | .transaction s t => afterSlot s (txPayload t)
    | .transactionStatus s => afterSlot s none
    | .block s => afterSlot s none
    | .ping => .skip
    | .pong => .skip
    | .blockMeta s => afterSlot s none
    | .entry s => afterSlot s none

/-! ## The `grpc2kafka` loop as a step function
(`ArgsAction::grpc2kafka`, lines 228-426)

States are the suspension points of the source: the `builder.connect()` await
(line 263), the `subscribe_once` await (line 280), the stream `select!`
(lines 293-314), the pending `send_result` call (line 370), the back-pressure
`select!` (lines 381-392), the unconditional cursor advance and
`thread::sleep(2000)` (lines 410-411), and the drain loop (lines 415-423).
`returnedOk` would be a `return Ok(())` of the function; no transition
produces it — the outer `loop` (line 252) has no normal exit. -/

/-- Configuration the loop control depends on: the endpoint count
(`endpoints.len()`) and `config.kafka_queue_size`. -/
structure GCfg where
  epCount : Nat
  queueSize : Nat
  deriving DecidableEq

/-- Control point of the `grpc2kafka` task; `tasks` is `send_tasks.len()`. -/
inductive GPhase
  | connecting
  | subscribing
  | streaming (tasks : Nat)
  | sending (tasks : Nat)
  | bounding (tasks : Nat)
  | advancing (tasks : Nat)
  | draining (tasks : Nat)
  | returnedOk
  | terminatedErr
  | panicked
  deriving DecidableEq

/-- State of the `grpc2kafka` task: control point, `ep_idx`, `kafka_error`. -/
structure GState where
  phase : GPhase
  epIdx : Nat
  kafkaErr : Bool
  deriving DecidableEq

/-- One item of `geyser.next()` after `.transpose()`: `Ok(Some(update))`
carrying `update_oneof`, `Ok(None)` (graceful close), or `Err(status)`. -/
inductive StreamItem
  | item (u : Option UpdateOneof)
  | closed
  | err
  deriving DecidableEq

/-- Environment events: which awaited alternative fires. -/
inductive GEvent
  | shutdown
  | kafkaError
  | taskOk
  | taskErr
  | taskNone
  | connected (ok : Bool)
  | subscribed (ok : Bool)
  | sendRes (ok : Bool)
  | stream (i : StreamItem)
  deriving DecidableEq

/-- One step of the `grpc2kafka` loop.  Events that cannot occur at the given
control point leave the state unchanged. -/
def gstep (cfg : GCfg) (s : GState) (e : GEvent) : GState :=
  match s.phase, e with
  -- lines 263-274: `builder.connect().await`; failure advances the cursor and
  -- sleeps 2000 ms inside the same uninterrupted step
  | .connecting, .connected true => { s with phase := .subscribing }
  | .connecting, .connected false => { s with epIdx := (s.epIdx + 1) % cfg.epCount }
  -- lines 280-288: `subscribe_once`; failure advances the cursor and sleeps
  | .subscribing, .subscribed true => { s with phase := .streaming 0 }
  | .subscribing, .subscribed false =>
      { s with phase := .connecting, epIdx := (s.epIdx + 1) % cfg.epCount }
  -- lines 293-314: the stream `select!`; `break` leaves `'stream_loop`, then
  -- line 413 drains only when `kafka_error` is still false, and the outer
  -- `loop` re-enters the connect attempt afterwards
  | .streaming t, .shutdown =>
      if s.kafkaErr then { s with phase := .connecting } else { s with phase := .draining t }
  | .streaming _, .kafkaError => { s with phase := .connecting, kafkaErr := true }
  | .streaming t, .taskOk => if 0 < t then { s with phase := .streaming (t - 1) } else s
  | .streaming t, .taskErr => if 0 < t then { s with phase := .terminatedErr } else s
  -- lines 317-368: handle `Ok(Some(msg))`; a publishable record moves to the
  -- `send_result` call, everything else `continue`s or panics
  | .streaming t, .stream (.item u) =>
      match handleUpdate u with
      | .panicked => { s with phase := .panicked }
      | .skip => s
      | .publish _ _ _ => { s with phase := .sending t }
  -- lines 398-408: `Ok(None)` and `Err(status)` `break 'stream_loop`, jumping
  -- past the cursor advance at line 410
  | .streaming t, .stream .closed =>
      if s.kafkaErr then { s with phase := .connecting } else { s with phase := .draining t }
  | .streaming t, .stream .err =>
      if s.kafkaErr then { s with phase := .connecting } else { s with phase := .draining t }
  -- lines 370-396: `kafka.send_result`; `Err` returns from the function,
  -- `Ok` spawns the task and enters the ceiling check at line 380
  | .sending _, .sendRes false => { s with phase := .terminatedErr }
  | .sending t, .sendRes true =>
      if cfg.queueSize ≤ t + 1 then { s with phase := .bounding (t + 1) }
      else { s with phase := .advancing (t + 1) }
  -- lines 381-392: the back-pressure `select!`
  | .bounding t, .shutdown =>
      if s.kafkaErr then { s with phase := .connecting } else { s with phase := .draining t }
  | .bounding _, .kafkaError => { s with phase := .connecting, kafkaErr := true }
  | .bounding t, .taskOk => { s with phase := .advancing (t - 1) }
  | .bounding _, .taskErr => { s with phase := .terminatedErr }
  | .bounding t, .taskNone => if t = 0 then { s with phase := .advancing t } else s
  -- lines 410-411: `ep_idx = (ep_idx + 1) % ep_count; thread::sleep(2000)`
  -- runs after every published record, whatever else is pending
  | .advancing t, _ => { s with phase := .streaming t, epIdx := (s.epIdx + 1) % cfg.epCount }
  -- lines 415-423: the drain loop selects only the error sideband and
  -- `join_next`; when it ends, the outer `loop` re-enters the connect attempt
  | .draining _, .kafkaError => { s with phase := .connecting }
  | .draining t, .taskOk => if 0 < t then { s with phase := .draining (t - 1) } else s
  | .draining t, .taskErr => if 0 < t then { s with phase := .terminatedErr } else s
  | .draining t, .taskNone => if t = 0 then { s with phase := .connecting } else s
  | _, _ => s

/-- The state the `grpc2kafka` loop starts in: first endpoint, no error. -/
def ginit : GState := ⟨.connecting, 0, false⟩

/-- States the `grpc2kafka` loop can reach. -/
inductive GReach (cfg : GCfg) : GState → Prop
  | init : GReach cfg ginit
  | step (e : GEvent) {s : GState} : GReach cfg s → GReach cfg (gstep cfg s e)

/-! ## Dedup key parsing (`ArgsAction::dedup`, lines 153-173) -/

/-- `str::split_once('_')`: the pieces before and after the first underscore,
or `none` when there is none. -/
def splitOnceUscore : List Char → Option (List Char × List Char)
  | [] => none
  | c :: rest =>
      if c = '_' then some ([], rest)
      else (splitOnceUscore rest).map (fun p => (c :: p.1, p.2))

/-- `u64::from_str` accepts one optional leading `'+'` sign. -/
def stripPlus : List Char → List Char
  | '+' :: rest => rest
  | cs => cs

/-- `slot.parse::<u64>()`: an optional leading `'+'`, then one or more ASCII
decimal digits, value below `2 ^ 64`. -/
def parseU64 (s : String) : Option Nat :=
  let cs := stripPlus s.data
  if cs ≠ [] ∧ cs.all (fun c => decide ('0' ≤ c) && decide (c ≤ '9')) then
    let v := cs.foldl (fun a c => a * 10 + (c.toNat - 48)) 0
    if v < 2 ^ 64 then some v else none
  else none

/-- The value of one hex digit character, either case. -/
def hexDigitVal (c : Char) : Option Nat :=
  if '0' ≤ c ∧ c ≤ '9' then some (c.toNat - 48)
  else if 'a' ≤ c ∧ c ≤ 'f' then some (c.toNat - 87)
  else if 'A' ≤ c ∧ c ≤ 'F' then some (c.toNat - 55)
  else none

/-- Hex digits two at a time into bytes; odd length fails. -/
def hexDecodeBytes : List Char → Option (List Nat)
  | [] => some []
  | [_] => none
  | c1 :: c2 :: rest =>
      match hexDigitVal c1, hexDigitVal c2, hexDecodeBytes rest with
      | some hi, some lo, some bs => some ((hi * 16 + lo) :: bs)
      | _, _, _ => none

/-- `const_hex` strips one leading `"0x"` or `"0X"` before decoding. -/
def strip0x : List Char → List Char
  | '0' :: 'x' :: rest => rest
  | '0' :: 'X' :: rest => rest
  | cs => cs

/-- `const_hex::decode_to_slice(hash, &mut [0u8; 32])`: after the optional
prefix, exactly 64 hex digits of either case give the 32 hash bytes. -/
def decodeToSlice32 (s : String) : Option (List Nat) :=
  let cs := strip0x s.data
  if cs.length = 64 then hexDecodeBytes cs else none

/-- Lines 162-173: split the key at the first `'_'`, parse the slot as `u64`,
decode the hash into 32 bytes; any failure skips the message. -/
def parseKey (key : String) : Option (Nat × List Nat) :=
  match splitOnceUscore key.data with
  | none => none
  | some (slotCs, hashCs) =>
    match parseU64 (String.mk slotCs) with
    | none => none
    | some slot => (decodeToSlice32 (String.mk hashCs)).map (fun bytes => (slot, bytes))

/-! ## The dedup data path (`ArgsAction::dedup`, lines 147-197) -/

/-- A Kafka message as the dedup loop sees it.  `keyUtf8` is
`message.key().and_then(|k| String::from_utf8(k.to_vec()).ok())` — `none`
covers both a missing key and one that is not valid UTF-8. -/
structure KMessage where
  keyUtf8 : Option String
  payload : Option (List Nat)
  deriving DecidableEq

/-- `GprcMessageKind`, the metrics label passed to `sent_inc`; the dedup stage
always uses `Unknown`. -/
inductive GprcMessageKind
  | account
  | slot
  | transaction
  | transactionStatus
  | block
  | blockMeta
  | entry
  | unknown
  deriving DecidableEq

/-- Modelled from the spec (§4.B, §3 `SeenKey`): the dedup backend
(`kafka::dedup::KafkaDedup`, not under `src/`) answers
`allowed(slot, hash)` with `true` exactly on the first observation of the
pair; an in-memory instance starts empty.  The call is an atomic
test-and-set, so a sequential fold over the consumed messages captures every
interleaving of the spawned send tasks. -/
structure DedupBackend where
  seen : List (Nat × List Nat)
  deriving DecidableEq

/-- Modelled from the spec (§4.B): first observation inserts and allows;
a repeat observation is refused and leaves the store unchanged. -/
def DedupBackend.allowed (b : DedupBackend) (slot : Nat) (hash : List Nat) :
    Bool × DedupBackend :=
  if (slot, hash) ∈ b.seen then (false, b)
  else (true, ⟨(slot, hash) :: b.seen⟩)

/-- Observable state of the dedup data path: the backend, the records
produced to `kafka_output` in order, the `sent_inc` kinds, and the
`dedup_inc` count. -/
structure DedupIO where
  backend : DedupBackend
  produced : List (String × List Nat)
  sent : List GprcMessageKind
  dedupCnt : Nat
  deriving DecidableEq

/-- A fresh dedup stage over a fresh in-memory backend. -/
def freshDedup : DedupIO := ⟨⟨[]⟩, [], [], 0⟩

/-- Lines 153-197: keep messages with a UTF-8 key and a payload, parse the
key, then either republish `{key, payload}` to `kafka_output` and count
`sent_inc(Unknown)`, or count `dedup_inc()`. -/
def dedupHandle (st : DedupIO) (m : KMessage) : DedupIO :=
  match m.keyUtf8, m.payload with
  | some key, some payload =>
    match parseKey key with
    | none => st
    | some (slot, hash) =>
      match st.backend.allowed slot hash with
      | (true, b) =>
          { st with backend := b, produced := st.produced ++ [(key, payload)],
                    sent := st.sent ++ [.unknown] }
      | (false, b) => { st with backend := b, dedupCnt := st.dedupCnt + 1 }
  | _, _ => st

/-- The dedup data path over a whole consumed sequence. -/
def dedupRun (st : DedupIO) (msgs : List KMessage) : DedupIO :=
  msgs.foldl dedupHandle st

/-! ## The `dedup` loop as a step function
(`ArgsAction::dedup`, lines 95-226)

Unlike `grpc2kafka`, this function ends: `break` leaves the loop at line 124,
the drain at lines 213-224 runs when `kafka_error` is false, and line 225
returns `Ok(())`. -/

/-- Configuration the dedup loop control depends on. -/
structure DCfg where
  queueSize : Nat
  deriving DecidableEq

/-- Control point of the dedup task; `tasks` is `send_tasks.len()`. -/
inductive DPhase
  | running (tasks : Nat)
  | bounding (tasks : Nat)
  | draining (tasks : Nat)
  | returnedOk
  | terminatedErr
  deriving DecidableEq

/-- State of the dedup task. -/
structure DState where
  phase : DPhase
  kafkaErr : Bool
  deriving DecidableEq

/-- Environment events of the dedup loop. -/
inductive DEvent
  | shutdown
  | kafkaError
  | taskOk
  | taskErr
  | taskNone
  | recvErr
  | recv (m : KMessage)
  deriving DecidableEq

/-- One step of the dedup loop. -/
def dstep (cfg : DCfg) (s : DState) (e : DEvent) : DState :=
  match s.phase, e with
  -- lines 125-146: the main `select!`; `break` goes to line 213, which drains
  -- only when `kafka_error` is false, and line 225 returns `Ok(())`
  | .running t, .shutdown =>
      if s.kafkaErr then { s with phase := .returnedOk } else { s with phase := .draining t }
  | .running _, .kafkaError => { phase := .returnedOk, kafkaErr := true }
  | .running t, .taskOk => if 0 < t then { s with phase := .running (t - 1) } else s
  | .running t, .taskErr => if 0 < t then { s with phase := .terminatedErr } else s
  | .running _, .recvErr => { s with phase := .terminatedErr }
  -- lines 153-198: parse; malformed messages `continue`, well-formed ones
  -- spawn a send task and enter the ceiling check at line 198
  | .running t, .recv m =>
      match m.keyUtf8, m.payload with
      | some key, some _ =>
        match parseKey key with
        | none => s
        | some _ =>
            if cfg.queueSize ≤ t + 1 then { s with phase := .bounding (t + 1) }
            else { s with phase := .running (t + 1) }
      | _, _ => s
  -- lines 199-210: the back-pressure `select!`
  | .bounding t, .shutdown =>
      if s.kafkaErr then { s with phase := .returnedOk } else { s with phase := .draining t }
  | .bounding _, .kafkaError => { phase := .returnedOk, kafkaErr := true }
  | .bounding t, .taskOk => { s with phase := .running (t - 1) }
  | .bounding _, .taskErr => { s with phase := .terminatedErr }
  | .bounding t, .taskNone => if t = 0 then { s with phase := .running t } else s
  -- lines 215-223: the drain loop, then `Ok(())`
  | .draining _, .kafkaError => { s with phase := .returnedOk }
  | .draining t, .taskOk => if 0 < t then { s with phase := .draining (t - 1) } else s
  | .draining t, .taskErr => if 0 < t then { s with phase := .terminatedErr } else s
  | .draining t, .taskNone => if t = 0 then { s with phase := .returnedOk } else s
  | _, _ => s

/-- The state the dedup loop starts in. -/
def dinit : DState := ⟨.running 0, false⟩

/-- States the dedup loop can reach. -/
inductive DReach (cfg : DCfg) : DState → Prop
  | init : DReach cfg dinit
  | step (e : DEvent) {s : DState} : DReach cfg s → DReach cfg (dstep cfg s e)

/-! ## Key shapes as the claims word them -/

/-- The key shape exactly as claim C8 words it: a decimal slot (digits only),
one underscore, then 64 hex characters.  Stated from the claim for comparison
with `parseKey`. -/
def specExactShapeKey (s : String) : Bool :=
  match splitOnceUscore s.data with
  | none => false
  | some (slotCs, hashCs) =>
      decide (slotCs ≠ []) && slotCs.all (fun c => decide ('0' ≤ c) && decide (c ≤ '9')) &&
      decide (hashCs.length = 64) && hashCs.all (fun c => (hexDigitVal c).isSome)

/-- The amended key shape: what the dedup stage actually accepts — an optional
leading `'+'`, then decimal digits with value below `2 ^ 64`, one underscore,
then 64 hex characters of either case after an optional `"0x"`/`"0X"`. -/
def amendedShapeKey (s : String) : Bool :=
  match splitOnceUscore s.data with
  | none => false
  | some (slotCs, hashCs) =>
      (decide (stripPlus slotCs ≠ []) &&
       (stripPlus slotCs).all (fun c => decide ('0' ≤ c) && decide (c ≤ '9')) &&
       decide ((stripPlus slotCs).foldl (fun a c => a * 10 + (c.toNat - 48)) 0 < 2 ^ 64)) &&
      (decide ((strip0x hashCs).length = 64) &&
       (strip0x hashCs).all (fun c => (hexDigitVal c).isSome))

/-! ## Helper lemmas -/

/-- Inversion of the handler: a published record comes from a `Transaction`
variant whose body decoded, the payload is its JSON bytes, and the key is
built by `mkKey` from the same slot. -/
theorem handleUpdate_publish {m : UpdateOneof} {k : String} {p : List Nat} {s : Nat}
    (h : handleUpdate (some m) = .publish k p s) :
    ∃ tx : TxInfo, m = .transaction s (some tx) ∧ tx.decodeOk = true ∧
      tx.json = p ∧ k = mkKey s p := by
  cases m with
  | transaction s' t =>
    cases t with
    | none => simp [handleUpdate, afterSlot, txPayload] at h
    | some tx =>
      cases htx : tx.decodeOk with
      | false => simp [handleUpdate, afterSlot, txPayload, htx] at h
      | true =>
        simp only [handleUpdate, afterSlot, txPayload, htx, if_true] at h
        injection h with hk hp hs
        subst hs; subst hp
        exact ⟨tx, rfl, htx, rfl, hk.symm⟩
  | account s' => simp [handleUpdate, afterSlot] at h
  | slot s' => simp [handleUpdate, afterSlot] at h
  | transactionStatus s' => simp [handleUpdate, afterSlot] at h
  | block s' => simp [handleUpdate, afterSlot] at h
  | ping => simp [handleUpdate] at h
  | pong => simp [handleUpdate] at h
  | blockMeta s' => simp [handleUpdate, afterSlot] at h
  | entry s' => simp [handleUpdate, afterSlot] at h

/-! ## The claims -/

/-- C1: every record published by the `grpc2kafka` stage carries the key
`"{slot}_{hex}"` — the decimal slot, one underscore, and the 64-character
lowercase hex of SHA-256 over the record's payload bytes — and the slot in
the key is the slot field of the `Transaction` update the payload was derived
from. -/
theorem c1_key_format (m : UpdateOneof) (k : String) (p : List Nat) (s : Nat)
    (h : handleUpdate (some m) = .publish k p s) :
    k = toString s ++ "_" ++ hexEncode (sha256 p) ∧
    (hexEncode (sha256 p)).length = 64 ∧
    (∀ c ∈ (hexEncode (sha256 p)).data, isLowerHexDigit c = true) ∧
    ∃ t, m = .transaction s t := by
  obtain ⟨tx, hm, -, -, hk⟩ := handleUpdate_publish h
  refine ⟨hk, ?_, ?_, some tx, hm⟩
  · rw [hexEncode_length, sha256_length]
  · exact hexEncode_lower fun b hb => mem_sha256_lt hb

/-- C1 witness: the key format theorem at a concrete decodable transaction. -/
theorem c1_key_format_witness :
    mkKey 100 [66, 67] = toString 100 ++ "_" ++ hexEncode (sha256 [66, 67]) ∧
    (hexEncode (sha256 [66, 67])).length = 64 ∧
    (∀ c ∈ (hexEncode (sha256 [66, 67])).data, isLowerHexDigit c = true) ∧
    ∃ t, UpdateOneof.transaction 100 (some ⟨true, [66, 67]⟩) = .transaction 100 t :=
  c1_key_format (.transaction 100 (some ⟨true, [66, 67]⟩)) _ _ _ rfl

/-- C5: only `Transaction` variants ever produce a published record in
`grpc2kafka`; `Ping` and `Pong` are always dropped and never published. -/
theorem c5_only_transactions (m : UpdateOneof) (k : String) (p : List Nat) (s : Nat)
    (h : handleUpdate (some m) = .publish k p s) :
    (∃ t, m = .transaction s t) ∧ m ≠ .ping ∧ m ≠ .pong ∧
    handleUpdate (some .ping) = .skip ∧ handleUpdate (some .pong) = .skip := by
  obtain ⟨tx, hm, -, -, -⟩ := handleUpdate_publish h
  subst hm
  refine ⟨⟨some tx, rfl⟩, ?_, ?_, rfl, rfl⟩ <;> intro hc <;> cases hc

/-- C5 witness: the theorem at a concrete publishable transaction. -/
theorem c5_only_transactions_witness :
    (∃ t, UpdateOneof.transaction 3 (some ⟨true, [65]⟩) = .transaction 3 t) ∧
    UpdateOneof.transaction 3 (some ⟨true, [65]⟩) ≠ .ping ∧
    UpdateOneof.transaction 3 (some ⟨true, [65]⟩) ≠ .pong ∧
    handleUpdate (some .ping) = .skip ∧ handleUpdate (some .pong) = .skip :=
  c5_only_transactions (.transaction 3 (some ⟨true, [65]⟩)) _ _ _ rfl

/-- C9: the keying stage is a function of the inner transaction body — the
same `Transaction` update processed twice yields the same key string and the
same payload bytes. -/
theorem c9_deterministic (s : Nat) (t : Option TxInfo) (k1 k2 : String)
    (p1 p2 : List Nat) (s1 s2 : Nat)
    (h1 : handleUpdate (some (.transaction s t)) = .publish k1 p1 s1)
    (h2 : handleUpdate (some (.transaction s t)) = .publish k2 p2 s2) :
    k1 = k2 ∧ p1 = p2 := by
  rw [h1] at h2
  injection h2 with hk hp hs
  exact ⟨hk, hp⟩

/-- C9 witness: the determinism theorem at a concrete transaction. -/
theorem c9_deterministic_witness :
    mkKey 9 [65] = mkKey 9 [65] ∧ ([65] : List Nat) = [65] :=
  c9_deterministic 9 (some ⟨true, [65]⟩) _ _ _ _ _ _ rfl rfl

/-- C10: an update whose `update_oneof` is absent hits the
`unreachable!("Expect valid message")` arm — the stage panics instead of
dropping the message, and the panic state is absorbing. -/
theorem c10_missing_oneof_panics :
    handleUpdate none = .panicked ∧
    (∀ (cfg : GCfg) (t ep : Nat) (ke : Bool),
        gstep cfg ⟨.streaming t, ep, ke⟩ (.stream (.item none)) = ⟨.panicked, ep, ke⟩) ∧
    (∀ (cfg : GCfg) (ep : Nat) (ke : Bool) (e : GEvent),
        gstep cfg ⟨.panicked, ep, ke⟩ e = ⟨.panicked, ep, ke⟩) := by
  refine ⟨rfl, fun cfg t ep ke => rfl, fun cfg ep ke e => ?_⟩
  cases e <;> rfl

/-- No step of the `grpc2kafka` machine newly enters `returnedOk`: every
transition either leaves the state unchanged or lands on some other phase.
The function has no `Ok` return — its only exits are error returns and the
panic arm. -/
theorem gstep_no_new_ok (cfg : GCfg) (s : GState) (e : GEvent) :
    gstep cfg s e = s ∨ (gstep cfg s e).phase ≠ .returnedOk := by
  rcases s with ⟨ph, ep, ke⟩
  simp only [gstep]
  split <;>
    first
      | (left; rfl)
      | (right; simp; done)
      | (right; split <;> simp)

/-- C2 (code bug): on shutdown the `dedup` stage drains and returns `Ok`,
but the `grpc2kafka` stage only breaks its stream loop — after the drain the
outer `loop` re-enters the connect attempt, and no transition of the stage
ever reaches an `Ok` return. -/
theorem c2_shutdown_code_bug :
    gstep ⟨2, 4⟩ ⟨.streaming 0, 0, false⟩ .shutdown = ⟨.draining 0, 0, false⟩ ∧
    gstep ⟨2, 4⟩ ⟨.draining 0, 0, false⟩ .taskNone = ⟨.connecting, 0, false⟩ ∧
    (∀ (cfg : GCfg) (s : GState) (e : GEvent),
        gstep cfg s e = s ∨ (gstep cfg s e).phase ≠ .returnedOk) ∧
    dstep ⟨4⟩ ⟨.running 0, false⟩ .shutdown = ⟨.draining 0, false⟩ ∧
    dstep ⟨4⟩ ⟨.draining 0, false⟩ .taskNone = ⟨.returnedOk, false⟩ :=
  ⟨rfl, rfl, gstep_no_new_ok, rfl, rfl⟩

/-- C3 (code bug): with two endpoints, a stream error or a graceful close at
endpoint 0 `break`s past the advance at line 410, so the next attempt reuses
endpoint 0 with no backoff; a successfully published record, by contrast,
falls through to line 410 and advances the cursor mid-stream.  Connect and
subscribe failures do advance by one modulo the endpoint count. -/
theorem c3_cursor_code_bug :
    gstep ⟨2, 4⟩ ⟨.streaming 0, 0, false⟩ (.stream .err) = ⟨.draining 0, 0, false⟩ ∧
    gstep ⟨2, 4⟩ ⟨.streaming 0, 0, false⟩ (.stream .closed) = ⟨.draining 0, 0, false⟩ ∧
    gstep ⟨2, 4⟩ ⟨.draining 0, 0, false⟩ .taskNone = ⟨.connecting, 0, false⟩ ∧
    gstep ⟨2, 4⟩ ⟨.sending 0, 0, false⟩ (.sendRes true) = ⟨.advancing 1, 0, false⟩ ∧
    gstep ⟨2, 4⟩ ⟨.advancing 1, 0, false⟩ .taskNone = ⟨.streaming 1, 1, false⟩ ∧
    gstep ⟨2, 4⟩ ⟨.connecting, 1, false⟩ (.connected false) = ⟨.connecting, 0, false⟩ ∧
    gstep ⟨2, 4⟩ ⟨.subscribing, 1, false⟩ (.subscribed false) = ⟨.connecting, 0, false⟩ :=
  ⟨rfl, rfl, rfl, rfl, rfl, rfl, rfl⟩

/-- C7 (code bug): shutdown is not among the awaited alternatives while
connecting or subscribing, and both the 2000 ms backoff after a failed
attempt and the mid-stream advance-and-sleep of lines 410-411 are single
uninterruptible steps whose outcome ignores a pending shutdown — the stage
sleeps through and re-enters the next attempt instead of returning. -/
theorem c7_backoff_code_bug :
    (∀ (cfg : GCfg) (ep : Nat) (ke : Bool),
        gstep cfg ⟨.connecting, ep, ke⟩ .shutdown = ⟨.connecting, ep, ke⟩) ∧
    (∀ (cfg : GCfg) (ep : Nat) (ke : Bool),
        gstep cfg ⟨.subscribing, ep, ke⟩ .shutdown = ⟨.subscribing, ep, ke⟩) ∧
    (∀ (cfg : GCfg) (ep : Nat) (ke : Bool),
        gstep cfg ⟨.connecting, ep, ke⟩ (.connected false) =
          ⟨.connecting, (ep + 1) % cfg.epCount, ke⟩) ∧
    (∀ (cfg : GCfg) (t ep : Nat) (ke : Bool),
        gstep cfg ⟨.advancing t, ep, ke⟩ .shutdown =
          ⟨.streaming t, (ep + 1) % cfg.epCount, ke⟩) :=
  ⟨fun _ _ _ => rfl, fun _ _ _ => rfl, fun _ _ _ => rfl, fun _ _ _ _ => rfl⟩

/-! ## The in-flight ceiling -/

/-- `send_tasks.len()` as recorded in a `grpc2kafka` control point. -/
def tasksOfG : GPhase → Nat
  | .streaming t => t
  | .sending t => t
  | .bounding t => t
  | .advancing t => t
  | .draining t => t
  | _ => 0

/-- Control points from which the `grpc2kafka` loop can still spawn a new
send task before any ceiling check intervenes. -/
def acceptingG : GPhase → Bool
  | .streaming _ => true
  | .sending _ => true
  | .advancing _ => true
  | _ => false

/-- `send_tasks.len()` as recorded in a dedup control point. -/
def tasksOfD : DPhase → Nat
  | .running t => t
  | .bounding t => t
  | .draining t => t
  | _ => 0

/-- Control points from which the dedup loop can still spawn a send task. -/
def acceptingD : DPhase → Bool
  | .running _ => true
  | _ => false

set_option maxHeartbeats 1600000 in
/-- One step of `grpc2kafka` preserves the in-flight bound: at most
`max queue_size 1` tasks, and strictly fewer at the accepting points. -/
theorem gstep_inv (cfg : GCfg) (s : GState) (e : GEvent)
    (h1 : tasksOfG s.phase ≤ max cfg.queueSize 1)
    (h2 : acceptingG s.phase = true → tasksOfG s.phase < max cfg.queueSize 1) :
    tasksOfG (gstep cfg s e).phase ≤ max cfg.queueSize 1 ∧
    (acceptingG (gstep cfg s e).phase = true →
      tasksOfG (gstep cfg s e).phase < max cfg.queueSize 1) := by
  rcases s with ⟨ph, ep, ke⟩
  simp only [gstep]
  split <;>
    first
      | (exact ⟨h1, h2⟩)
      | (constructor <;> simp_all [tasksOfG, acceptingG] <;> omega)
      | (split <;>
          first
            | (exact ⟨h1, h2⟩)
            | (constructor <;> simp_all [tasksOfG, acceptingG] <;> omega))

set_option maxHeartbeats 1600000 in
/-- One step of the dedup loop preserves the in-flight bound. -/
theorem dstep_inv (cfg : DCfg) (s : DState) (e : DEvent)
    (h1 : tasksOfD s.phase ≤ max cfg.queueSize 1)
    (h2 : acceptingD s.phase = true → tasksOfD s.phase < max cfg.queueSize 1) :
    tasksOfD (dstep cfg s e).phase ≤ max cfg.queueSize 1 ∧
    (acceptingD (dstep cfg s e).phase = true →
      tasksOfD (dstep cfg s e).phase < max cfg.queueSize 1) := by
  rcases s with ⟨ph, ke⟩
  simp only [dstep]
  split <;>
    first
      | (exact ⟨h1, h2⟩)
      | (constructor <;> simp_all [tasksOfD, acceptingD] <;> omega)
      | (split <;>
          first
            | (exact ⟨h1, h2⟩)
            | (constructor <;> simp_all [tasksOfD, acceptingD] <;> omega)
            | (split <;>
                first
                  | (exact ⟨h1, h2⟩)
                  | (constructor <;> simp_all [tasksOfD, acceptingD] <;> omega)
                  | (split <;>
                      first
                        | (exact ⟨h1, h2⟩)
                        | (constructor <;> simp_all [tasksOfD, acceptingD] <;> omega))))

/-- Every reachable `grpc2kafka` state obeys the in-flight bound. -/
theorem greach_bound {cfg : GCfg} {s : GState} (h : GReach cfg s) :
    tasksOfG s.phase ≤ max cfg.queueSize 1 ∧
    (acceptingG s.phase = true → tasksOfG s.phase < max cfg.queueSize 1) := by
  induction h with
  | init => exact ⟨by simp [ginit, tasksOfG], by simp [ginit, acceptingG]⟩
  | @step e s hr ih => exact gstep_inv cfg s e ih.1 ih.2

/-- Every reachable dedup state obeys the in-flight bound. -/
theorem dreach_bound {cfg : DCfg} {s : DState} (h : DReach cfg s) :
    tasksOfD s.phase ≤ max cfg.queueSize 1 ∧
    (acceptingD s.phase = true → tasksOfD s.phase < max cfg.queueSize 1) := by
  induction h with
  | init => exact ⟨by simp [dinit, tasksOfD], by simp [dinit, tasksOfD, acceptingD]⟩
  | @step e s hr ih => exact dstep_inv cfg s e ih.1 ih.2

/-- C6 (amended): in every reachable state of both loops the number of
in-flight publish tasks is at most `max kafka_queue_size 1` (so at most
`kafka_queue_size` whenever the configured size is at least one, and strictly
serial for size one), and while the ceiling `select!` is pending no further
stream item or Kafka message is accepted. -/
theorem c6_inflight_bound_amended :
    (∀ (cfg : GCfg) (s : GState), GReach cfg s →
        tasksOfG s.phase ≤ max cfg.queueSize 1) ∧
    (∀ (cfg : DCfg) (s : DState), DReach cfg s →
        tasksOfD s.phase ≤ max cfg.queueSize 1) ∧
    (∀ (cfg : GCfg) (t ep : Nat) (ke : Bool) (i : StreamItem),
        gstep cfg ⟨.bounding t, ep, ke⟩ (.stream i) = ⟨.bounding t, ep, ke⟩) ∧
    (∀ (cfg : DCfg) (t : Nat) (ke : Bool) (m : KMessage),
        dstep cfg ⟨.bounding t, ke⟩ (.recv m) = ⟨.bounding t, ke⟩) :=
  ⟨fun _ _ h => (greach_bound h).1, fun _ _ h => (dreach_bound h).1,
   fun _ _ _ _ _ => rfl, fun _ _ _ _ => rfl⟩

/-- C6 witness: the bound at the initial states of both loops. -/
theorem c6_inflight_bound_amended_witness :
    tasksOfG ginit.phase ≤ max 4 1 ∧ tasksOfD dinit.phase ≤ max 4 1 :=
  ⟨c6_inflight_bound_amended.1 ⟨2, 4⟩ ginit GReach.init,
   c6_inflight_bound_amended.2.1 ⟨4⟩ dinit DReach.init⟩

/-- C6 counterexample: with `kafka_queue_size = 0` the claimed bound
"in-flight ≤ kafka_queue_size" fails — the spawn at line 372 precedes the
ceiling check at line 380, so a reachable state holds one in-flight task. -/
theorem c6_inflight_counterexample :
    GReach ⟨1, 0⟩ ⟨.bounding 1, 0, false⟩ ∧
    (⟨1, 0⟩ : GCfg).queueSize = 0 ∧ tasksOfG (.bounding 1) = 1 := by
  refine ⟨?_, rfl, rfl⟩
  have h0 : GReach ⟨1, 0⟩ ginit := GReach.init
  have h1 := GReach.step (.connected true) h0
  have e1 : gstep ⟨1, 0⟩ ginit (.connected true) = ⟨.subscribing, 0, false⟩ := rfl
  rw [e1] at h1
  have h2 := GReach.step (.subscribed true) h1
  have e2 : gstep ⟨1, 0⟩ ⟨.subscribing, 0, false⟩ (.subscribed true) =
      ⟨.streaming 0, 0, false⟩ := rfl
  rw [e2] at h2
  have h3 := GReach.step (.stream (.item (some (.transaction 5 (some ⟨true, [65]⟩))))) h2
  have e3 : gstep ⟨1, 0⟩ ⟨.streaming 0, 0, false⟩
      (.stream (.item (some (.transaction 5 (some ⟨true, [65]⟩))))) =
      ⟨.sending 0, 0, false⟩ := rfl
  rw [e3] at h3
  have h4 := GReach.step (.sendRes true) h3
  have e4 : gstep ⟨1, 0⟩ ⟨.sending 0, 0, false⟩ (.sendRes true) =
      ⟨.bounding 1, 0, false⟩ := rfl
  rw [e4] at h4
  exact h4

/-! ## Dedup at-most-once republish -/

/-- How many produced records carry a key that parses to `(slot, hash)`. -/
def producedFor (slot : Nat) (hash : List Nat) (recs : List (String × List Nat)) : Nat :=
  (recs.filter (fun r => decide (parseKey r.1 = some (slot, hash)))).length

/-- Running the dedup data path adds at most one `(slot, hash)` record when
the pair is unseen, and none when the backend has already seen it. -/
theorem dedupRun_count_le (slot : Nat) (hash : List Nat) :
    ∀ (msgs : List KMessage) (st : DedupIO),
      producedFor slot hash (dedupRun st msgs).produced ≤
        producedFor slot hash st.produced +
          (if (slot, hash) ∈ st.backend.seen then 0 else 1) := by
  intro msgs
  induction msgs with
  | nil =>
      intro st
      simp only [dedupRun, List.foldl_nil]
      split <;> omega
  | cons m msgs ih =>
      intro st
      have hstep : dedupRun st (m :: msgs) = dedupRun (dedupHandle st m) msgs := rfl
      rw [hstep]
      refine le_trans (ih (dedupHandle st m)) ?_
      rcases m with ⟨mk, mp⟩
      rcases mk with _ | key
      · simp [dedupHandle]
      rcases mp with _ | payload
      · simp [dedupHandle]
      rcases hparse : parseKey key with _ | ⟨slot', hash'⟩
      · simp [dedupHandle, hparse]
      by_cases hmem : (slot', hash') ∈ st.backend.seen
      · have hh : dedupHandle st ⟨some key, some payload⟩ =
            { st with dedupCnt := st.dedupCnt + 1 } := by
          simp [dedupHandle, hparse, DedupBackend.allowed, hmem]
        rw [hh]
      · have hh : dedupHandle st ⟨some key, some payload⟩ =
            { st with backend := ⟨(slot', hash') :: st.backend.seen⟩,
                      produced := st.produced ++ [(key, payload)],
                      sent := st.sent ++ [.unknown] } := by
          simp [dedupHandle, hparse, DedupBackend.allowed, hmem]
        rw [hh]
        simp only [producedFor, List.filter_append, List.length_append]
        by_cases heq : (slot', hash') = (slot, hash)
        · have hs : slot' = slot := congrArg Prod.fst heq
          have hhsh : hash' = hash := congrArg Prod.snd heq
          subst hs; subst hhsh
          simp [hparse, List.mem_cons, hmem]
        · have hne : ¬(parseKey key = some (slot, hash)) := by
            rw [hparse]
            intro hc
            exact heq (Option.some_injective _ hc)
          have hmm : ((slot, hash) ∈ (slot', hash') :: st.backend.seen) =
              ((slot, hash) ∈ st.backend.seen) := by
            simp only [List.mem_cons]
            refine propext ⟨fun h => ?_, fun h => Or.inr h⟩
            rcases h with h | h
            · exact absurd h.symm heq
            · exact h
          simp [hne, hmm]

/-- C4: a well-formed message whose `(slot, hash)` the backend has not seen is
republished with exactly the original key and payload and counted by
`sent_inc(Unknown)`; a seen pair is not republished and bumps the dedup
counter; over a fresh in-memory backend at most one republish happens per
`(slot, hash)`. -/
theorem c4_dedup_republish :
    (∀ (st : DedupIO) (m : KMessage) (key : String) (payload : List Nat)
        (slot : Nat) (hash : List Nat),
        m.keyUtf8 = some key → m.payload = some payload →
        parseKey key = some (slot, hash) →
        (((slot, hash) ∉ st.backend.seen →
            dedupHandle st m =
              { st with backend := ⟨(slot, hash) :: st.backend.seen⟩,
                        produced := st.produced ++ [(key, payload)],
                        sent := st.sent ++ [.unknown] }) ∧
         ((slot, hash) ∈ st.backend.seen →
            dedupHandle st m = { st with dedupCnt := st.dedupCnt + 1 }))) ∧
    (∀ (msgs : List KMessage) (slot : Nat) (hash : List Nat),
        producedFor slot hash (dedupRun freshDedup msgs).produced ≤ 1) := by
  constructor
  · intro st m key payload slot hash hk hp hparse
    rcases m with ⟨mk, mp⟩
    cases hk
    cases hp
    constructor
    · intro hmem
      simp [dedupHandle, hparse, DedupBackend.allowed, hmem]
    · intro hmem
      simp [dedupHandle, hparse, DedupBackend.allowed, hmem]
  · intro msgs slot hash
    have h := dedupRun_count_le slot hash msgs freshDedup
    simpa [freshDedup, producedFor] using h

/-- A key the `grpc2kafka` stage would emit for slot 5 over 32 zero bytes:
used to exercise the dedup data path. -/
def wfKey : String := "5_0000000000000000000000000000000000000000000000000000000000000000"

/-- C4 witness: the republish equation and the at-most-once bound at a
concrete well-formed message, fed twice from a fresh backend. -/
theorem c4_dedup_republish_witness :
    dedupHandle freshDedup ⟨some wfKey, some [1]⟩ =
      { freshDedup with backend := ⟨[(5, List.replicate 32 0)]⟩,
                        produced := [(wfKey, [1])], sent := [.unknown] } ∧
    producedFor 5 (List.replicate 32 0)
      (dedupRun freshDedup [⟨some wfKey, some [1]⟩, ⟨some wfKey, some [1]⟩]).produced ≤ 1 :=
  ⟨(c4_dedup_republish.1 freshDedup ⟨some wfKey, some [1]⟩ wfKey [1] 5
      (List.replicate 32 0) rfl rfl (by decide)).1 (by decide),
   c4_dedup_republish.2 [⟨some wfKey, some [1]⟩, ⟨some wfKey, some [1]⟩] 5
      (List.replicate 32 0)⟩

/-! ## Malformed-key handling in the dedup stage -/

theorem string_data_mk (cs : List Char) : (String.mk cs).data = cs := rfl

theorem hexDecodeBytes_isSome_cons (c1 c2 : Char) (rest : List Char) :
    (hexDecodeBytes (c1 :: c2 :: rest)).isSome =
      ((hexDigitVal c1).isSome && (hexDigitVal c2).isSome &&
        (hexDecodeBytes rest).isSome) := by
  rcases h1 : hexDigitVal c1 with _ | v1 <;> rcases h2 : hexDigitVal c2 with _ | v2 <;>
    rcases h3 : hexDecodeBytes rest with _ | bs <;> simp [hexDecodeBytes, h1, h2, h3]

/-- Hex decoding succeeds exactly on even-length strings of hex digits. -/
theorem hexDecodeBytes_isSome : ∀ cs : List Char,
    (hexDecodeBytes cs).isSome =
      (decide (cs.length % 2 = 0) && cs.all fun c => (hexDigitVal c).isSome)
  | [] => by simp [hexDecodeBytes]
  | [c] => by simp [hexDecodeBytes]
  | c1 :: c2 :: rest => by
      rw [hexDecodeBytes_isSome_cons, hexDecodeBytes_isSome rest]
      simp only [List.length_cons, List.all_cons]
      have hmod : decide ((rest.length + 1 + 1) % 2 = 0) = decide (rest.length % 2 = 0) := by
        rw [decide_eq_decide]
        omega
      rw [hmod]
      cases hexDigitVal c1 |>.isSome <;> cases hexDigitVal c2 |>.isSome <;>
        cases decide (rest.length % 2 = 0) <;> simp

/-- `parse::<u64>` succeeds exactly on an optional `'+'`, nonempty digits,
value below `2 ^ 64`. -/
theorem parseU64_isSome (s : String) :
    (parseU64 s).isSome =
      (decide (stripPlus s.data ≠ []) &&
       (stripPlus s.data).all (fun c => decide ('0' ≤ c) && decide (c ≤ '9')) &&
       decide ((stripPlus s.data).foldl (fun a c => a * 10 + (c.toNat - 48)) 0 < 2 ^ 64)) := by
  unfold parseU64
  simp only []
  split
  case isTrue h1 =>
    split
    case isTrue h2 => simp [h1.1, h1.2, h2]; omega
    case isFalse h2 => simp [h1.1, h1.2, h2]; omega
  case isFalse h1 =>
    rw [not_and_or] at h1
    rcases h1 with h1 | h1
    · simp only [ne_eq, not_not] at h1
      simp [h1]
    · simp only [Bool.not_eq_true] at h1
      simp [h1]

/-- `const_hex::decode_to_slice` into 32 bytes succeeds exactly on 64 hex
digits after the optional prefix. -/
theorem decodeToSlice32_isSome (s : String) :
    (decodeToSlice32 s).isSome =
      (decide ((strip0x s.data).length = 64) &&
       (strip0x s.data).all fun c => (hexDigitVal c).isSome) := by
  unfold decodeToSlice32
  simp only []
  split
  case isTrue h => rw [hexDecodeBytes_isSome]; simp [h]
  case isFalse h => simp [h]

/-- The dedup key parser succeeds exactly on keys of the amended shape. -/
theorem parseKey_isSome (k : String) : (parseKey k).isSome = amendedShapeKey k := by
  unfold parseKey amendedShapeKey
  rcases hsp : splitOnceUscore k.data with _ | ⟨slotCs, hashCs⟩
  · rfl
  · simp only
    have hu := parseU64_isSome (String.mk slotCs)
    rw [string_data_mk] at hu
    have hd := decodeToSlice32_isSome (String.mk hashCs)
    rw [string_data_mk] at hd
    rw [← hu, ← hd]
    rcases hp : parseU64 (String.mk slotCs) with _ | slot
    · simp [hp]
    · simp [hp]

/-- C8 (amended): a message lacking a UTF-8 key or a payload, or whose key is
not of the amended shape, leaves the dedup state untouched — nothing is
republished and neither the sent nor the dedup counter moves. -/
theorem c8_malformed_skip_amended (st : DedupIO) (m : KMessage)
    (h : m.keyUtf8 = none ∨ m.payload = none ∨
         ∃ k, m.keyUtf8 = some k ∧ amendedShapeKey k = false) :
    dedupHandle st m = st := by
  rcases m with ⟨mk, mp⟩
  rcases h with h | h | ⟨k, hk, hshape⟩
  · cases h
    cases mp <;> rfl
  · cases h
    cases mk <;> rfl
  · cases hk
    rcases hparse : parseKey k with _ | v
    · cases mp <;> simp [dedupHandle, hparse]
    · exfalso
      have h1 := parseKey_isSome k
      rw [hparse, hshape] at h1
      simp at h1

/-- C8 witness: the amended skip theorem at a message with no key. -/
theorem c8_malformed_skip_amended_witness :
    dedupHandle freshDedup ⟨none, some [1]⟩ = freshDedup :=
  c8_malformed_skip_amended freshDedup ⟨none, some [1]⟩ (Or.inl rfl)

/-- A key whose slot part carries a leading `'+'`: not of the exact shape the
claim states, yet accepted by the stage. -/
def plusKey : String := "+5_0000000000000000000000000000000000000000000000000000000000000000"

/-- C8 counterexample: `"+5_{64 zeros}"` is not of the claimed exact shape
(its slot part is not a decimal numeral), yet the dedup stage accepts it —
`"+5".parse::<u64>()` is `Ok(5)` — and republishes rather than skipping. -/
theorem c8_malformed_counterexample :
    specExactShapeKey plusKey = false ∧
    (dedupHandle freshDedup ⟨some plusKey, some [1]⟩).produced = [(plusKey, [1])] ∧
    (dedupHandle freshDedup ⟨some plusKey, some [1]⟩).sent = [GprcMessageKind.unknown] :=
  ⟨by decide, by decide, by decide⟩

end YGK
